import Mathlib

/-
Verification of the Prisma article service (src/Dataset/backend/main.py):
a FastAPI application storing article records with six boolean bias flags
in a MySQL table and re-exporting the table as CSV, parquet and a
column-oriented dataset dictionary.  The development below is a shallow
embedding of the data model, the database operations and the three export
encoders, followed by theorems settling the specification claims.
-/

namespace Prisma

/-- Validated article-creation payload (the pydantic model `ArticleCreate`):
three required strings plus six boolean bias flags that default to `false`. -/
structure ArticleCreate where
  url : String
  news_article : String
  summary : String
  bias_religious : Bool
  bias_cultural : Bool
  bias_language : Bool
  bias_gender : Bool
  bias_pro_gov : Bool
  bias_anti_gov : Bool
deriving DecidableEq

/-- Response model `ArticleResponse`: the eight payload fields plus the id
assigned by the store. -/
structure ArticleResponse where
  id : Nat
  url : String
  news_article : String
  summary : String
  bias_religious : Bool
  bias_cultural : Bool
  bias_language : Bool
  bias_gender : Bool
  bias_pro_gov : Bool
  bias_anti_gov : Bool
deriving DecidableEq

/-- A row of the `articles` table as the MySQL connector hands it back
(`cursor(dictionary=True)` with `SELECT * FROM articles`): the BOOLEAN
(TINYINT) columns come back as the small integers 0/1, not as booleans. -/
structure FetchedRow where
  id : Nat
  url : String
  news_article : String
  summary : String
  bias_religious : Nat
  bias_cultural : Nat
  bias_language : Nat
  bias_gender : Nat
  bias_pro_gov : Nat
  bias_anti_gov : Nat
deriving DecidableEq

/-- MySQL stores a Python boolean parameter of the INSERT as 1/0. -/
def boolToInt (b : Bool) : Nat := if b then 1 else 0

/-- The row that the INSERT of `create_article` makes the store hold, as later
fetched: the assigned id plus the eight payload fields, booleans as 0/1. -/
def mkRow (i : Nat) (a : ArticleCreate) : FetchedRow :=
  ⟨i, a.url, a.news_article, a.summary, boolToInt a.bias_religious,
   boolToInt a.bias_cultural, boolToInt a.bias_language, boolToInt a.bias_gender,
   boolToInt a.bias_pro_gov, boolToInt a.bias_anti_gov⟩

/-- The `articles` table: its rows in insertion order plus the next
AUTO_INCREMENT id (1 on a freshly created table). -/
structure ArticlesTable where
  rows : List FetchedRow
  nextId : Nat
deriving DecidableEq

/-- State of the database reached through `get_db`, instrumented with counters
for the connections opened (`get_db_connection`) and the SQL statements
executed (`cursor.execute`).  `table = none` means the `articles` table has
not been created yet. -/
structure DBState where
  table : Option ArticlesTable
  connections : Nat
  queries : Nat
deriving DecidableEq

/-- A pandas column of the fetched DataFrame, tagged with its dtype:
int64 for the id and the flag columns, object (string) for the text
columns, bool after an explicit conversion. -/
inductive Col where
  | ints : List Nat → Col
  | strs : List String → Col
  | bools : List Bool → Col
deriving DecidableEq

/-- Number of values in a column. -/
def colLen : Col → Nat
  | .ints xs => xs.length
  | .strs xs => xs.length
  | .bools xs => xs.length

/-- The ten columns of `pd.DataFrame(articles)` for a non-empty fetch, in the
table's column order; id and the six flags are int64, the texts are object. -/
def dfColumns (rows : List FetchedRow) : List (String × Col) :=
  [("id", Col.ints (rows.map (·.id))),
   ("url", Col.strs (rows.map (·.url))),
   ("news_article", Col.strs (rows.map (·.news_article))),
   ("summary", Col.strs (rows.map (·.summary))),
   ("bias_religious", Col.ints (rows.map (·.bias_religious))),
   ("bias_cultural", Col.ints (rows.map (·.bias_cultural))),
   ("bias_language", Col.ints (rows.map (·.bias_language))),
   ("bias_gender", Col.ints (rows.map (·.bias_gender))),
   ("bias_pro_gov", Col.ints (rows.map (·.bias_pro_gov))),
   ("bias_anti_gov", Col.ints (rows.map (·.bias_anti_gov)))]

/-- `get_articles_as_df` seen as the schema of the frame it builds:
`pd.DataFrame([])` on an empty fetch is a frame with no columns at all. -/
def get_articles_as_df (rows : List FetchedRow) : List (String × Col) :=
  if rows.isEmpty then [] else dfColumns rows

/-- Decimal digits of a natural number, most significant first, computed with
explicit fuel (`n + 1` is always enough). -/
def natDigits (fuel n : Nat) : List Char :=
  match fuel with
  | 0 => []
  | fuel + 1 =>
      if n < 10 then [Nat.digitChar n]
      else natDigits fuel (n / 10) ++ [Nat.digitChar (n % 10)]

/-- Decimal rendering of an int64 cell in `DataFrame.to_csv`. -/
def natStr (n : Nat) : String := ⟨natDigits (n + 1) n⟩

/-- csv.QUOTE_MINIMAL: a field is quoted iff it contains the delimiter, the
quote character or a line-break character. -/
def needsQuote (s : String) : Bool :=
  s.data.any fun c => c == ',' || c == '\"' || c == '\n' || c == '\r'

/-- Quote-doubling of the csv writer: every `"` becomes `""`. -/
def csvEscape : List Char → List Char
  | [] => []
  | c :: cs => if c == '\"' then '\"' :: '\"' :: csvEscape cs else c :: csvEscape cs

/-- A text cell as `DataFrame.to_csv` writes it (minimal quoting). -/
def csvCell (s : String) : String :=
  if needsQuote s then ⟨'\"' :: (csvEscape s.data ++ ['\"'])⟩ else s

/-- The cells of one CSV data row, in column order: ints rendered as decimal
digits (so a flag fetched as 0/1 renders as `0`/`1`), texts minimally quoted. -/
def rowCells (r : FetchedRow) : List String :=
  [natStr r.id, csvCell r.url, csvCell r.news_article, csvCell r.summary,
   natStr r.bias_religious, natStr r.bias_cultural, natStr r.bias_language,
   natStr r.bias_gender, natStr r.bias_pro_gov, natStr r.bias_anti_gov]

/-- Joining the cells of one row with the `,` delimiter. -/
def commaJoin : List String → String
  | [] => ""
  | [c] => c
  | c :: c2 :: cs => c ++ "," ++ commaJoin (c2 :: cs)

/-- The column names of the `articles` table in order. -/
def headerNames : List String :=
  ["id", "url", "news_article", "summary", "bias_religious", "bias_cultural",
   "bias_language", "bias_gender", "bias_pro_gov", "bias_anti_gov"]

/-- The header row written by `to_csv` for a non-empty frame. -/
def csvHeaderLine : String := commaJoin (headerNames.map csvCell)

/-- Concatenation of the data rows, each terminated by a newline. -/
def linesConcat : List String → String
  | [] => ""
  | l :: ls => l ++ "\n" ++ linesConcat ls

/-- `df.to_csv(stream, index=False)` on the fetched frame: a frame with no
columns (empty fetch) writes a single empty line; otherwise the header line
followed by one newline-terminated line per record. -/
def to_csv (rows : List FetchedRow) : String :=
  if rows.isEmpty then "\n"
  else csvHeaderLine ++ "\n" ++ linesConcat (rows.map fun r => commaJoin (rowCells r))

/-- `df.to_parquet(stream, index=False)`: the frame serialized column by
column with its dtypes unchanged — no boolean conversion happens on this
path, so flag columns keep the int64 0/1 values of the fetch. -/
def to_parquet (rows : List FetchedRow) : List (String × Col) :=
  get_articles_as_df rows

/-- The conversion loop of `export_articles_dataset`: an int64 column whose
set of values is contained in `{0, 1}` is cast to bool (`astype(bool)` maps a
value to the test `value ≠ 0`); every other column is untouched. -/
def convertCol : Col → Col
  | .ints xs => if xs.all (fun x => x ≤ 1) then Col.bools (xs.map (fun x => x != 0)) else Col.ints xs
  | .strs xs => Col.strs xs
  | .bools xs => Col.bools xs

/-- Result body of the `/articles/dataset` endpoint. -/
inductive DatasetResult where
  | emptyData
  | table : List (String × Col) → DatasetResult
deriving DecidableEq

/-- Body of `export_articles_dataset` as a function of the fetched rows:
`{"data": []}` when the frame is empty, otherwise the column dictionary of
`Dataset.from_pandas(df).to_dict()` after the 0/1-to-bool conversion loop. -/
def datasetBody (rows : List FetchedRow) : DatasetResult :=
  if rows.isEmpty then DatasetResult.emptyData
  else DatasetResult.table ((get_articles_as_df rows).map fun nc => (nc.1, convertCol nc.2))

/-- `get_db` / `get_db_connection`: one fresh connection acquired for the
request (and released on every exit path after the handler returns). -/
def get_db (db : DBState) : DBState :=
  { db with connections := db.connections + 1 }

/-- Execution of `SELECT * FROM articles`: one statement issued; it yields the
rows when the table exists and a MySQL error (`none`) when it is absent. -/
def selectAll (db : DBState) : DBState × Option (List FetchedRow) :=
  ({ db with queries := db.queries + 1 }, db.table.map (·.rows))

/-- A MySQL-level failure surfaced as HTTP 500 with a detail string. -/
structure StorageError where
  detail : String
deriving DecidableEq

/-- Handler of `GET /articles/csv`: fetch the whole table once, render it with
`to_csv`; an unreachable table propagates as a storage error. -/
def export_articles_csv (db : DBState) : DBState × Except StorageError String :=
  let db := get_db db
  match selectAll db with
  | (db, none) => (db, Except.error ⟨"Database error"⟩)
  | (db, some rows) => (db, Except.ok (to_csv rows))

/-- Handler of `GET /articles/parquet`: fetch once, serialize columnar. -/
def export_articles_parquet (db : DBState) :
    DBState × Except StorageError (List (String × Col)) :=
  let db := get_db db
  match selectAll db with
  | (db, none) => (db, Except.error ⟨"Database error"⟩)
  | (db, some rows) => (db, Except.ok (to_parquet rows))

/-- Handler of `GET /articles/dataset`: fetch once, return `{"data": []}` on
an empty frame, otherwise the converted column dictionary. -/
def export_articles_dataset (db : DBState) :
    DBState × Except StorageError DatasetResult :=
  let db := get_db db
  match selectAll db with
  | (db, none) => (db, Except.error ⟨"Database error"⟩)
  | (db, some rows) => (db, Except.ok (datasetBody rows))

/-- Handler of `POST /articles/`: INSERT the eight fields, commit, and answer
with the input plus `cursor.lastrowid`; on a MySQL error (absent table, or the
write being rejected, modelled by the `writeRejected` input) the transaction is
rolled back — the table is left as it was — and a 500 storage error is raised. -/
def create_article (a : ArticleCreate) (writeRejected : Bool) (db : DBState) :
    DBState × Except StorageError ArticleResponse :=
  let db := get_db db
  let db := { db with queries := db.queries + 1 }
  match db.table with
  | none => (db, Except.error ⟨"Database error: no such table"⟩)
  | some t =>
      if writeRejected then (db, Except.error ⟨"Database error: write rejected"⟩)
      else
        ({ db with table := some ⟨t.rows ++ [mkRow t.nextId a], t.nextId + 1⟩ },
         Except.ok ⟨t.nextId, a.url, a.news_article, a.summary, a.bias_religious,
                    a.bias_cultural, a.bias_language, a.bias_gender, a.bias_pro_gov,
                    a.bias_anti_gov⟩)

/-- Outcome message of `POST /initialize-database`. -/
inductive InitMessage where
  | created
  | alreadyExists
deriving DecidableEq

/-- Handler of `POST /initialize-database`: `SHOW TABLES LIKE 'articles'`,
then either report that the table already exists (touching nothing) or run the
CREATE TABLE statement, giving an empty table with AUTO_INCREMENT at 1. -/
def init_database (db : DBState) : DBState × InitMessage :=
  let db := get_db db
  let db := { db with queries := db.queries + 1 }
  match db.table with
  | some _ => (db, InitMessage.alreadyExists)
  | none =>
      ({ db with table := some ⟨[], 1⟩, queries := db.queries + 1 },
       InitMessage.created)

/-- Body returned by `GET /health`. -/
structure HealthResponse where
  status : String
  db_initialized : Bool
deriving DecidableEq

/-- Handler of `GET /health`: `SHOW TABLES LIKE 'articles'` and report whether
a row came back; with a reachable store this never raises — a missing table is
answered as `{"status": "ok", "db_initialized": false}`. -/
def health_check (db : DBState) : DBState × HealthResponse :=
  let db := get_db db
  let db := { db with queries := db.queries + 1 }
  (db, ⟨"ok", db.table.isSome⟩)

/-- An inbound JSON body for `POST /articles/` before validation: any of the
nine fields may be absent. -/
structure CreatePayload where
  url : Option String
  news_article : Option String
  summary : Option String
  bias_religious : Option Bool
  bias_cultural : Option Bool
  bias_language : Option Bool
  bias_gender : Option Bool
  bias_pro_gov : Option Bool
  bias_anti_gov : Option Bool
deriving DecidableEq

/-- Pydantic validation failure naming the offending fields. -/
structure ValidationError where
  missing : List String
deriving DecidableEq

/-- The required string fields of `ArticleCreate` missing from a payload. -/
def requiredMissing (p : CreatePayload) : List String :=
  (if p.url.isNone then ["url"] else []) ++
  (if p.news_article.isNone then ["news_article"] else []) ++
  (if p.summary.isNone then ["summary"] else [])

/-- Pydantic validation of a request body against `ArticleCreate`: the three
string fields are required, the six flags default to `false` when absent. -/
def validateCreate (p : CreatePayload) : Except ValidationError ArticleCreate :=
  match p.url, p.news_article, p.summary with
  | some u, some na, some sm =>
      Except.ok ⟨u, na, sm, p.bias_religious.getD false, p.bias_cultural.getD false,
                 p.bias_language.getD false, p.bias_gender.getD false,
                 p.bias_pro_gov.getD false, p.bias_anti_gov.getD false⟩
  | _, _, _ => Except.error ⟨requiredMissing p⟩

/-- Either error a `POST /articles/` request can surface. -/
inductive RequestError where
  | validation : ValidationError → RequestError
  | storage : StorageError → RequestError
deriving DecidableEq

/-- Modelled from the spec: the HTTP framework's request dispatch is outside
src/ — per the spec's propagation policy, a body failing validation is
rejected with a `ValidationError` before the Data Access Layer runs, so no
connection is acquired and no statement is issued; a valid body reaches the
`create_article` handler. -/
def handle_create (p : CreatePayload) (writeRejected : Bool) (db : DBState) :
    DBState × Except RequestError ArticleResponse :=
  match validateCreate p with
  | Except.error e => (db, Except.error (RequestError.validation e))
  | Except.ok a =>
      match create_article a writeRejected db with
      | (db, Except.error e) => (db, Except.error (RequestError.storage e))
      | (db, Except.ok r) => (db, Except.ok r)

/-- Sequence of successful creates, threading the database state. -/
def createMany (ps : List ArticleCreate) (db : DBState) : DBState :=
  ps.foldl (fun db a => (create_article a false db).1) db

/-- Database state right after schema creation on a fresh server:
an existing, empty `articles` table. -/
def initialDB : DBState := ⟨some ⟨[], 1⟩, 0, 0⟩

/-- The rows currently stored (empty when the table is absent). -/
def tableRows (db : DBState) : List FetchedRow :=
  (db.table.map (·.rows)).getD []

/-- Number of newline characters in a string; every line of a `to_csv` body is
newline-terminated, so this is its line count. -/
def nlCount (s : String) : Nat := s.data.count '\n'

/-- A string free of line breaks. -/
abbrev noNL (s : String) : Prop := nlCount s = 0

/-- The rows produced by consecutive creates starting at a given
AUTO_INCREMENT value. -/
def buildRows (i : Nat) : List ArticleCreate → List FetchedRow
  | [] => []
  | a :: as => mkRow i a :: buildRows (i + 1) as

/-- The names of the six bias-flag columns. -/
def flagNames : List String :=
  ["bias_religious", "bias_cultural", "bias_language", "bias_gender",
   "bias_pro_gov", "bias_anti_gov"]

/-- All six fetched flag fields of a row are the small integers 0 or 1. -/
def flagsLeOne (r : FetchedRow) : Prop :=
  r.bias_religious ≤ 1 ∧ r.bias_cultural ≤ 1 ∧ r.bias_language ≤ 1 ∧
  r.bias_gender ≤ 1 ∧ r.bias_pro_gov ≤ 1 ∧ r.bias_anti_gov ≤ 1

/-- The spec's concrete sample article, with the gender flag set. -/
def sampleCreate : ArticleCreate :=
  ⟨"http://a", "text", "sum", false, false, false, true, false, false⟩

/-- The spec's sample article as stored and fetched after the first create. -/
def sampleRow : FetchedRow := mkRow 1 sampleCreate

/-- A create body supplying only the three required strings. -/
def payloadNoFlags : CreatePayload :=
  ⟨some "http://a", some "text", some "sum", none, none, none, none, none, none⟩

/-- The validated article `payloadNoFlags` yields: all six flags default to
`false`. -/
def articleDefaults : ArticleCreate :=
  ⟨"http://a", "text", "sum", false, false, false, false, false, false⟩

/-- A valid create body whose summary contains a line break. -/
def newlineCreate : ArticleCreate :=
  ⟨"http://a", "text", "line1\nline2", false, false, false, false, false, false⟩

/-- A create body missing the required `url` field. -/
def payloadMissingUrl : CreatePayload :=
  ⟨none, some "text", some "sum", none, none, none, none, none, none⟩

/-! Helper lemmas about newline counting in the CSV encoder. -/

lemma string_data_append (s t : String) : (s ++ t).data = s.data ++ t.data := rfl

lemma nlCount_append (s t : String) : nlCount (s ++ t) = nlCount s + nlCount t := by
  simp [nlCount, string_data_append, List.count_append]

lemma digitChar_ne_nl (k : Nat) (hk : k < 10) : Nat.digitChar k ≠ '\n' := by
  interval_cases k <;> decide

lemma nl_not_mem_natDigits (fuel : Nat) : ∀ n, '\n' ∉ natDigits fuel n := by
  induction fuel with
  | zero => intro n; simp [natDigits]
  | succ fuel ih =>
    intro n
    rw [natDigits]
    split
    · intro hmem
      rw [List.mem_singleton] at hmem
      exact digitChar_ne_nl n (by omega) hmem.symm
    · intro hmem
      rw [List.mem_append] at hmem
      rcases hmem with h | h
      · exact ih (n / 10) h
      · rw [List.mem_singleton] at h
        exact digitChar_ne_nl (n % 10) (Nat.mod_lt _ (by omega)) h.symm

lemma nlCount_natStr (n : Nat) : nlCount (natStr n) = 0 := by
  simp only [nlCount, natStr]
  exact List.count_eq_zero.2 (nl_not_mem_natDigits (n + 1) n)

lemma count_nl_csvEscape (l : List Char) : (csvEscape l).count '\n' = l.count '\n' := by
  induction l with
  | nil => rfl
  | cons c cs ih =>
    by_cases hc : c = '\"'
    · subst hc
      simp [csvEscape, List.count_cons, ih]
    · rw [csvEscape]
      simp only [beq_iff_eq, if_neg hc]
      simp [List.count_cons, ih]

lemma nlCount_csvCell (s : String) : nlCount (csvCell s) = nlCount s := by
  unfold csvCell
  split
  · simp [nlCount, List.count_cons, List.count_append, count_nl_csvEscape]
  · rfl

lemma nlCount_commaJoin (cells : List String) :
    nlCount (commaJoin cells) = (cells.map nlCount).sum := by
  induction cells with
  | nil => rfl
  | cons c cs ih =>
    cases cs with
    | nil => simp [commaJoin]
    | cons c2 cs2 =>
      rw [commaJoin, nlCount_append, nlCount_append, ih,
          show nlCount "," = 0 from by decide]
      simp

lemma nlCount_linesConcat (ls : List String) :
    nlCount (linesConcat ls) = ls.length + (ls.map nlCount).sum := by
  induction ls with
  | nil => rfl
  | cons l ls ih =>
    rw [linesConcat]
    simp [nlCount_append, ih]
    rw [show nlCount "\n" = 1 from rfl]
    omega

lemma natStr_le_one (n : Nat) (h : n ≤ 1) : natStr n = "0" ∨ natStr n = "1" := by
  interval_cases n
  · left; rfl
  · right; rfl

lemma nlCount_rowLine (r : FetchedRow) (h1 : noNL r.url) (h2 : noNL r.news_article)
    (h3 : noNL r.summary) : nlCount (commaJoin (rowCells r)) = 0 := by
  rw [nlCount_commaJoin, rowCells]
  simp [nlCount_csvCell, nlCount_natStr]
  exact ⟨h1, h2, h3⟩

lemma nlCount_to_csv (rows : List FetchedRow)
    (h : ∀ r ∈ rows, noNL r.url ∧ noNL r.news_article ∧ noNL r.summary) :
    nlCount (to_csv rows) = rows.length + 1 := by
  cases rows with
  | nil => decide
  | cons r rs =>
    rw [show to_csv (r :: rs) =
          csvHeaderLine ++ "\n" ++ linesConcat ((r :: rs).map fun x => commaJoin (rowCells x))
        from rfl]
    rw [nlCount_append, nlCount_append, nlCount_linesConcat]
    rw [show nlCount csvHeaderLine = 0 from by decide]
    rw [show nlCount "\n" = 1 from rfl]
    have hz : ((r :: rs).map fun r => commaJoin (rowCells r)).map nlCount = (r :: rs).map (fun _ => 0) := by
      rw [List.map_map]
      apply List.map_congr_left
      intro x hx
      obtain ⟨hu, hn, hs⟩ := h x hx
      simpa using nlCount_rowLine x hu hn hs
    rw [hz]
    simp
    omega

/-! Helper lemmas about the store state reached by consecutive creates. -/

lemma createMany_cons (a : ArticleCreate) (ps : List ArticleCreate) (db : DBState) :
    createMany (a :: ps) db = createMany ps (create_article a false db).1 := rfl

lemma create_article_state (a : ArticleCreate) (t : ArticlesTable) (c q : Nat) :
    (create_article a false ⟨some t, c, q⟩).1 =
      ⟨some ⟨t.rows ++ [mkRow t.nextId a], t.nextId + 1⟩, c + 1, q + 1⟩ := rfl

lemma createMany_table (ps : List ArticleCreate) :
    ∀ (t : ArticlesTable) (c q : Nat),
      (createMany ps ⟨some t, c, q⟩).table =
        some ⟨t.rows ++ buildRows t.nextId ps, t.nextId + ps.length⟩ := by
  induction ps with
  | nil => intro t c q; simp [createMany, buildRows]
  | cons a ps ih =>
    intro t c q
    rw [createMany_cons, create_article_state, ih]
    simp [buildRows, ArticlesTable.mk.injEq]
    omega

lemma buildRows_length (ps : List ArticleCreate) : ∀ i, (buildRows i ps).length = ps.length := by
  induction ps with
  | nil => intro i; rfl
  | cons a ps ih => intro i; simp [buildRows, ih]

lemma buildRows_strings (ps : List ArticleCreate)
    (h : ∀ a ∈ ps, noNL a.url ∧ noNL a.news_article ∧ noNL a.summary) :
    ∀ i, ∀ r ∈ buildRows i ps, noNL r.url ∧ noNL r.news_article ∧ noNL r.summary := by
  induction ps with
  | nil => intro i r hr; simp [buildRows] at hr
  | cons a ps ih =>
    intro i r hr
    rw [buildRows, List.mem_cons] at hr
    rcases hr with rfl | hr
    · exact h a (List.mem_cons_self a ps)
    · exact ih (fun b hb => h b (List.mem_cons_of_mem a hb)) (i + 1) r hr

/-! Helper lemmas about the dataset conversion loop. -/

lemma isEmpty_false_of_ne_nil {α : Type} {l : List α} (h : l ≠ []) : l.isEmpty = false := by
  cases l with
  | nil => exact absurd rfl h
  | cons x xs => rfl

lemma colLen_convertCol (c : Col) : colLen (convertCol c) = colLen c := by
  cases c with
  | ints xs =>
    rw [convertCol]
    split <;> simp [colLen]
  | strs xs => rfl
  | bools xs => rfl

lemma datasetBody_of_ne_nil (rows : List FetchedRow) (hne : rows ≠ []) :
    datasetBody rows =
      DatasetResult.table ((dfColumns rows).map fun nc => (nc.1, convertCol nc.2)) := by
  rw [datasetBody, if_neg, get_articles_as_df, if_neg] <;>
    simp [isEmpty_false_of_ne_nil hne]

lemma dfColumns_len (rows : List FetchedRow) :
    ∀ nc ∈ dfColumns rows, colLen nc.2 = rows.length := by
  intro nc hnc
  rw [dfColumns] at hnc
  simp only [List.mem_cons, List.not_mem_nil, or_false] at hnc
  rcases hnc with h | h | h | h | h | h | h | h | h | h <;> subst h <;> simp [colLen]

/-! The specification claims. -/

/-- C5: invoking the schema-creation operation twice in a row never errors
(with a reachable store its result is always a plain message), the second
invocation reports that the table already exists, and the store state after
the second call equals the state after the first. -/
theorem init_database_idempotent (db : DBState) :
    (init_database (init_database db).1).2 = InitMessage.alreadyExists ∧
    (init_database (init_database db).1).1.table = (init_database db).1.table := by
  rcases db with ⟨tb, c, q⟩
  cases tb <;> simp [init_database, get_db]

/-- C6: with a reachable store and the articles table absent, the health check
returns the structured body reporting ok status and schema absence (its result
type has no failure case: a missing table is a normal condition), and it never
changes the stored table. -/
theorem health_check_missing_table (db : DBState) (h : db.table = none) :
    (health_check db).2 = ⟨"ok", false⟩ ∧ (health_check db).1.table = db.table := by
  simp [health_check, get_db, h]

/-- Witness for C6 at the concrete store with no table. -/
theorem health_check_missing_table_witness :
    (health_check ⟨none, 0, 0⟩).2 = ⟨"ok", false⟩ ∧
    (health_check ⟨none, 0, 0⟩).1.table = (⟨none, 0, 0⟩ : DBState).table :=
  health_check_missing_table ⟨none, 0, 0⟩ rfl

/-- C2 counterexample: on an existing table with zero records the CSV export
returns a single empty line — the fetched frame has no columns — and not the
header row listing the field names, refuting the claim's row-text clause. -/
theorem empty_table_csv_not_header :
    (export_articles_csv initialDB).2 = Except.ok "\n" ∧
    ("\n" : String) ≠ csvHeaderLine ++ "\n" :=
  ⟨rfl, by decide⟩

/-- C2 amended: when the table exists with zero records, all three exports
succeed; the dataset body is the empty `{"data": []}` structure, the columnar
body has zero rows (indeed zero columns), and the row-text body is a single
empty line rather than the header row of field names. -/
theorem exports_on_empty_table (db : DBState) (t : ArticlesTable)
    (ht : db.table = some t) (hrows : t.rows = []) :
    (export_articles_csv db).2 = Except.ok "\n" ∧
    (export_articles_parquet db).2 = Except.ok [] ∧
    (export_articles_dataset db).2 = Except.ok DatasetResult.emptyData := by
  simp [export_articles_csv, export_articles_parquet, export_articles_dataset,
        selectAll, get_db, ht, hrows, to_csv, to_parquet, get_articles_as_df,
        datasetBody]

/-- Witness for C2 at the concrete empty table. -/
theorem exports_on_empty_table_witness :
    (export_articles_csv initialDB).2 = Except.ok "\n" ∧
    (export_articles_parquet initialDB).2 = Except.ok [] ∧
    (export_articles_dataset initialDB).2 = Except.ok DatasetResult.emptyData :=
  exports_on_empty_table initialDB ⟨[], 1⟩ rfl rfl

/-- C9: with the table present, a successful create answers exactly the
input's eight fields plus the id assigned by the store, and on any store
failure the surfaced result is a storage error with the table contents rolled
back to what they were before the call. -/
theorem create_returns_input_or_rolls_back (a : ArticleCreate) (db : DBState)
    (t : ArticlesTable) (ht : db.table = some t) :
    (create_article a false db).2 =
      Except.ok ⟨t.nextId, a.url, a.news_article, a.summary, a.bias_religious,
                 a.bias_cultural, a.bias_language, a.bias_gender, a.bias_pro_gov,
                 a.bias_anti_gov⟩ ∧
    ∀ (w : Bool) (e : StorageError), (create_article a w db).2 = Except.error e →
      (create_article a w db).1.table = db.table := by
  constructor
  · simp [create_article, get_db, ht]
  · intro w e he
    cases w
    · simp [create_article, get_db, ht] at he
    · simp [create_article, get_db, ht]

/-- Witness for C9 at the spec's concrete first create. -/
theorem create_returns_input_or_rolls_back_witness :
    (create_article sampleCreate false initialDB).2 =
      Except.ok ⟨1, "http://a", "text", "sum", false, false, false, true, false, false⟩ ∧
    (create_article sampleCreate true initialDB).1.table = initialDB.table := by
  have h := create_returns_input_or_rolls_back sampleCreate initialDB ⟨[], 1⟩ rfl
  exact ⟨h.1, h.2 true ⟨"Database error: write rejected"⟩ rfl⟩

/-- C8: a create payload missing a required string field is rejected with the
validation error naming the missing fields, and the database state — table,
connection count and statement count — is returned exactly as it was: no
connection is acquired and no write is attempted. -/
theorem invalid_create_rejected (p : CreatePayload) (w : Bool) (db : DBState)
    (h : requiredMissing p ≠ []) :
    handle_create p w db =
      (db, Except.error (RequestError.validation ⟨requiredMissing p⟩)) := by
  have hv : validateCreate p = Except.error ⟨requiredMissing p⟩ := by
    rcases hu : p.url with _ | u <;> rcases hn : p.news_article with _ | n <;>
      rcases hs : p.summary with _ | s <;>
      simp_all [validateCreate, requiredMissing]
  simp [handle_create, hv]

/-- Witness for C8 at the concrete payload missing its url. -/
theorem invalid_create_rejected_witness :
    handle_create payloadMissingUrl false initialDB =
      (initialDB, Except.error (RequestError.validation ⟨["url"]⟩)) :=
  invalid_create_rejected payloadMissingUrl false initialDB (by decide)

/-- C7: every export issues exactly one full-table SELECT per request, and
each encoding is a deterministic function of the fetched snapshot: two
invocations observing the same sequence of rows produce identical row-text,
columnar and structured-array bodies. -/
theorem exports_single_fetch_deterministic (db db' : DBState)
    (h : db.table.map (·.rows) = db'.table.map (·.rows)) :
    (export_articles_csv db).1.queries = db.queries + 1 ∧
    (export_articles_parquet db).1.queries = db.queries + 1 ∧
    (export_articles_dataset db).1.queries = db.queries + 1 ∧
    (export_articles_csv db).2 = (export_articles_csv db').2 ∧
    (export_articles_parquet db).2 = (export_articles_parquet db').2 ∧
    (export_articles_dataset db).2 = (export_articles_dataset db').2 := by
  rcases htb : db.table with _ | t <;> rcases htb' : db'.table with _ | t'
  · simp [export_articles_csv, export_articles_parquet, export_articles_dataset,
          selectAll, get_db, htb, htb']
  · rw [htb, htb'] at h
    simp at h
  · rw [htb, htb'] at h
    simp at h
  · rw [htb, htb'] at h
    simp only [Option.map_some', Option.some.injEq] at h
    simp [export_articles_csv, export_articles_parquet, export_articles_dataset,
          selectAll, get_db, htb, htb', h]

/-- Witness for C7: two stores holding the same single row but different
counters and AUTO_INCREMENT positions give identical CSV bodies, and the
export issues exactly one statement. -/
theorem exports_single_fetch_deterministic_witness :
    (export_articles_csv ⟨some ⟨[sampleRow], 2⟩, 0, 0⟩).2 =
      (export_articles_csv ⟨some ⟨[sampleRow], 9⟩, 4, 7⟩).2 ∧
    (export_articles_csv ⟨some ⟨[sampleRow], 2⟩, 0, 0⟩).1.queries = 0 + 1 := by
  have h := exports_single_fetch_deterministic ⟨some ⟨[sampleRow], 2⟩, 0, 0⟩
    ⟨some ⟨[sampleRow], 9⟩, 4, 7⟩ rfl
  exact ⟨h.2.2.2.1, h.1⟩

/-- C3: a create payload supplying the three required strings validates, the
insert goes through, and every bias flag omitted from the payload is `false`
in the create response and stored as 0 (false) in the table row. -/
theorem create_defaults_omitted_flags (p : CreatePayload) (a : ArticleCreate)
    (hv : validateCreate p = Except.ok a) (db : DBState) (t : ArticlesTable)
    (ht : db.table = some t) :
    (create_article a false db).1.table =
      some ⟨t.rows ++ [mkRow t.nextId a], t.nextId + 1⟩ ∧
    ∃ resp, (create_article a false db).2 = Except.ok resp ∧
      (p.bias_religious = none →
        resp.bias_religious = false ∧ (mkRow t.nextId a).bias_religious = 0) ∧
      (p.bias_cultural = none →
        resp.bias_cultural = false ∧ (mkRow t.nextId a).bias_cultural = 0) ∧
      (p.bias_language = none →
        resp.bias_language = false ∧ (mkRow t.nextId a).bias_language = 0) ∧
      (p.bias_gender = none →
        resp.bias_gender = false ∧ (mkRow t.nextId a).bias_gender = 0) ∧
      (p.bias_pro_gov = none →
        resp.bias_pro_gov = false ∧ (mkRow t.nextId a).bias_pro_gov = 0) ∧
      (p.bias_anti_gov = none →
        resp.bias_anti_gov = false ∧ (mkRow t.nextId a).bias_anti_gov = 0) := by
  rcases hu : p.url with _ | u <;> rcases hn : p.news_article with _ | n <;>
    rcases hs : p.summary with _ | s <;> simp [validateCreate, hu, hn, hs] at hv
  subst hv
  refine ⟨by simp [create_article, get_db, ht], ⟨t.nextId, u, n, s,
      p.bias_religious.getD false, p.bias_cultural.getD false,
      p.bias_language.getD false, p.bias_gender.getD false,
      p.bias_pro_gov.getD false, p.bias_anti_gov.getD false⟩,
    by simp [create_article, get_db, ht], ?_, ?_, ?_, ?_, ?_, ?_⟩ <;>
    intro hx <;> simp [mkRow, boolToInt, hx]

/-- Witness for C3 at the concrete payload omitting all six flags. -/
theorem create_defaults_omitted_flags_witness :
    ∃ resp, (create_article articleDefaults false initialDB).2 = Except.ok resp ∧
      resp.bias_religious = false ∧ resp.bias_gender = false ∧
      (mkRow 1 articleDefaults).bias_gender = 0 := by
  obtain ⟨-, resp, hok, h1, h2, h3, h4, h5, h6⟩ :=
    create_defaults_omitted_flags payloadNoFlags articleDefaults rfl initialDB ⟨[], 1⟩ rfl
  exact ⟨resp, hok, (h1 rfl).1, (h4 rfl).1, (h4 rfl).2⟩

/-- Auxiliary: an int64 column whose values are all 0/1 is converted to the
boolean column of its non-zero tests. -/
lemma convertCol_ints_le_one (rows : List FetchedRow) (f : FetchedRow → Nat)
    (hf : ∀ r ∈ rows, f r ≤ 1) :
    convertCol (Col.ints (rows.map f)) =
      Col.bools ((rows.map f).map fun x => x != 0) := by
  rw [convertCol, if_pos]
  rw [List.all_eq_true]
  intro x hx
  rw [List.mem_map] at hx
  obtain ⟨r, hr, rfl⟩ := hx
  exact decide_eq_true (hf r hr)

/-- C10: when every stored id is 0 or 1 — e.g. a table holding exactly one
record with auto-assigned id 1 — the dataset export's 0/1-to-bool conversion
also fires on the id column, which is exported as booleans instead of the
stored integer ids. -/
theorem dataset_id_column_becomes_bool (rows : List FetchedRow) (hne : rows ≠ [])
    (hid : ∀ r ∈ rows, r.id ≤ 1) :
    ∃ cols, datasetBody rows = DatasetResult.table cols ∧
      cols.lookup "id" = some (Col.bools (rows.map fun r => r.id != 0)) := by
  refine ⟨(dfColumns rows).map fun nc => (nc.1, convertCol nc.2),
    datasetBody_of_ne_nil rows hne, ?_⟩
  have h1 : List.lookup "id" ((dfColumns rows).map fun nc => (nc.1, convertCol nc.2)) =
      some (convertCol (Col.ints (rows.map fun r => r.id))) := rfl
  rw [h1, convertCol_ints_le_one rows (fun r => r.id) hid]
  rw [List.map_map]
  rfl

/-- Witness for C10 at the one-record table with id 1. -/
theorem dataset_id_column_becomes_bool_witness :
    ∃ cols, datasetBody [sampleRow] = DatasetResult.table cols ∧
      cols.lookup "id" = some (Col.bools [true]) :=
  dataset_id_column_becomes_bool [sampleRow] (List.cons_ne_nil _ _) (by decide)

/-- C1 counterexample: after the spec's first create (gender flag set), the
columnar export types bias_gender as an integer column holding the raw value
1 — not a boolean column — and the CSV body renders the six flags as the raw
digits 0/1, refuting the claim for two of the three encodings. -/
theorem flags_leak_raw_ints :
    (to_parquet [sampleRow]).lookup "bias_gender" = some (Col.ints [1]) ∧
    (∀ bs, (to_parquet [sampleRow]).lookup "bias_gender" ≠ some (Col.bools bs)) ∧
    to_csv [sampleRow] =
      "id,url,news_article,summary,bias_religious,bias_cultural,bias_language,bias_gender,bias_pro_gov,bias_anti_gov\n1,http://a,text,sum,0,0,0,1,0,0\n" := by
  refine ⟨rfl, ?_, by decide⟩
  intro bs h
  rw [show (to_parquet [sampleRow]).lookup "bias_gender" = some (Col.ints [1]) from rfl] at h
  simp at h

/-- C1 amended: only the structured-array export converts the 0/1 integer
flag columns of the fetched snapshot to booleans; the columnar export keeps
the six flags as integer columns of 0/1 values and the row-text export
renders them as the digit strings 0/1. -/
theorem exports_flag_rendering (rows : List FetchedRow) (hne : rows ≠ [])
    (hwf : ∀ r ∈ rows, flagsLeOne r) :
    (∀ name ∈ flagNames, ∃ xs, (to_parquet rows).lookup name = some (Col.ints xs) ∧
       ∀ x ∈ xs, x ≤ 1) ∧
    (∃ cols, datasetBody rows = DatasetResult.table cols ∧
       ∀ name ∈ flagNames, ∃ bs, cols.lookup name = some (Col.bools bs)) ∧
    (∀ r ∈ rows, ∀ c ∈ (rowCells r).drop 4, c = "0" ∨ c = "1") := by
  have hpq : to_parquet rows = dfColumns rows := by
    simp [to_parquet, get_articles_as_df, isEmpty_false_of_ne_nil hne]
  have hbound : ∀ (f : FetchedRow → Nat), (∀ r ∈ rows, f r ≤ 1) →
      ∀ x ∈ rows.map f, x ≤ 1 := by
    intro f hf x hx
    rw [List.mem_map] at hx
    obtain ⟨r, hr, rfl⟩ := hx
    exact hf r hr
  refine ⟨?_, ?_, ?_⟩
  · intro name hname
    rw [flagNames] at hname
    simp only [List.mem_cons, List.not_mem_nil, or_false] at hname
    rcases hname with rfl | rfl | rfl | rfl | rfl | rfl
    · exact ⟨_, by rw [hpq]; rfl, hbound _ fun r hr => (hwf r hr).1⟩
    · exact ⟨_, by rw [hpq]; rfl, hbound _ fun r hr => (hwf r hr).2.1⟩
    · exact ⟨_, by rw [hpq]; rfl, hbound _ fun r hr => (hwf r hr).2.2.1⟩
    · exact ⟨_, by rw [hpq]; rfl, hbound _ fun r hr => (hwf r hr).2.2.2.1⟩
    · exact ⟨_, by rw [hpq]; rfl, hbound _ fun r hr => (hwf r hr).2.2.2.2.1⟩
    · exact ⟨_, by rw [hpq]; rfl, hbound _ fun r hr => (hwf r hr).2.2.2.2.2⟩
  · refine ⟨(dfColumns rows).map fun nc => (nc.1, convertCol nc.2),
      datasetBody_of_ne_nil rows hne, ?_⟩
    intro name hname
    rw [flagNames] at hname
    simp only [List.mem_cons, List.not_mem_nil, or_false] at hname
    rcases hname with rfl | rfl | rfl | rfl | rfl | rfl
    · exact ⟨_, by rw [← convertCol_ints_le_one rows _ fun r hr => (hwf r hr).1]; rfl⟩
    · exact ⟨_, by rw [← convertCol_ints_le_one rows _ fun r hr => (hwf r hr).2.1]; rfl⟩
    · exact ⟨_, by rw [← convertCol_ints_le_one rows _ fun r hr => (hwf r hr).2.2.1]; rfl⟩
    · exact ⟨_, by rw [← convertCol_ints_le_one rows _ fun r hr => (hwf r hr).2.2.2.1]; rfl⟩
    · exact ⟨_, by rw [← convertCol_ints_le_one rows _ fun r hr => (hwf r hr).2.2.2.2.1]; rfl⟩
    · exact ⟨_, by rw [← convertCol_ints_le_one rows _ fun r hr => (hwf r hr).2.2.2.2.2]; rfl⟩
  · intro r hr c hcell
    obtain ⟨h1, h2, h3, h4, h5, h6⟩ := hwf r hr
    rw [show (rowCells r).drop 4 =
          [natStr r.bias_religious, natStr r.bias_cultural, natStr r.bias_language,
           natStr r.bias_gender, natStr r.bias_pro_gov, natStr r.bias_anti_gov]
        from rfl] at hcell
    simp only [List.mem_cons, List.not_mem_nil, or_false] at hcell
    rcases hcell with rfl | rfl | rfl | rfl | rfl | rfl
    · exact natStr_le_one _ h1
    · exact natStr_le_one _ h2
    · exact natStr_le_one _ h3
    · exact natStr_le_one _ h4
    · exact natStr_le_one _ h5
    · exact natStr_le_one _ h6

/-- Witness for C1's amended statement at the one-row table. -/
theorem exports_flag_rendering_witness :
    ∃ cols, datasetBody [sampleRow] = DatasetResult.table cols ∧
      ∀ name ∈ flagNames, ∃ bs, cols.lookup name = some (Col.bools bs) :=
  (exports_flag_rendering [sampleRow] (List.cons_ne_nil _ _)
    (by intro r hr; rw [List.mem_singleton] at hr; subst hr; unfold flagsLeOne; decide)).2.1

/-- C4 counterexample: one successful create whose summary contains a line
break makes the CSV export body have 3 lines, not the claimed N + 1 = 2. -/
theorem csv_lines_with_newline_field :
    ∃ out, (export_articles_csv (createMany [newlineCreate] initialDB)).2 = Except.ok out ∧
      nlCount out = 3 ∧ nlCount out ≠ [newlineCreate].length + 1 := by
  refine ⟨to_csv (buildRows 1 [newlineCreate]), rfl, by decide, by decide⟩

/-- C4 amended: after N successful creates on a freshly created empty table,
the CSV export succeeds with exactly N + 1 newline-terminated lines provided
the created strings contain no line breaks (at N = 0 the single line is empty
rather than a header), and the dataset export succeeds, with every column
value sequence of length N when N ≥ 1 and with the empty `{"data": []}` body
when N = 0. -/
theorem exports_after_creates (ps : List ArticleCreate)
    (hnl : ∀ a ∈ ps, noNL a.url ∧ noNL a.news_article ∧ noNL a.summary) :
    (∃ out, (export_articles_csv (createMany ps initialDB)).2 = Except.ok out ∧
       nlCount out = ps.length + 1) ∧
    (ps = [] → (export_articles_dataset (createMany ps initialDB)).2 =
       Except.ok DatasetResult.emptyData) ∧
    (ps ≠ [] → ∃ cols, (export_articles_dataset (createMany ps initialDB)).2 =
       Except.ok (DatasetResult.table cols) ∧
       ∀ nc ∈ cols, colLen nc.2 = ps.length) := by
  have htab : (createMany ps initialDB).table = some ⟨buildRows 1 ps, 1 + ps.length⟩ :=
    createMany_table ps ⟨[], 1⟩ 0 0
  refine ⟨⟨to_csv (buildRows 1 ps), ?_, ?_⟩, ?_, ?_⟩
  · simp [export_articles_csv, selectAll, get_db, htab]
  · rw [nlCount_to_csv _ (buildRows_strings ps hnl 1), buildRows_length]
  · intro hps
    subst hps
    simp [export_articles_dataset, selectAll, get_db, htab, datasetBody, buildRows]
  · intro hps
    have hne : buildRows 1 ps ≠ [] := by
      intro hcon
      apply hps
      have hl := buildRows_length ps 1
      rw [hcon] at hl
      exact (List.length_eq_zero.1 hl.symm)
    refine ⟨(dfColumns (buildRows 1 ps)).map fun nc => (nc.1, convertCol nc.2), ?_, ?_⟩
    · simp [export_articles_dataset, selectAll, get_db, htab,
            datasetBody_of_ne_nil _ hne]
    · intro nc hnc
      rw [List.mem_map] at hnc
      obtain ⟨nc0, hnc0, rfl⟩ := hnc
      rw [show ((nc0.1, convertCol nc0.2) : String × Col).2 = convertCol nc0.2 from rfl,
          colLen_convertCol, dfColumns_len _ nc0 hnc0, buildRows_length]

/-- Witness for C4's amended statement at the spec's two concrete creates. -/
theorem exports_after_creates_witness :
    ∃ out, (export_articles_csv (createMany [articleDefaults, sampleCreate] initialDB)).2 =
      Except.ok out ∧ nlCount out = 3 := by
  obtain ⟨⟨out, hok, hcnt⟩, -, -⟩ :=
    exports_after_creates [articleDefaults, sampleCreate] (by
      intro a ha
      simp only [List.mem_cons, List.not_mem_nil, or_false] at ha
      rcases ha with rfl | rfl <;> exact ⟨by decide, by decide, by decide⟩)
  exact ⟨out, hok, hcnt⟩

end Prisma
